import Mathlib

/-
Verification of the photoMaker passport-photo core.

Shallow embedding of the two numeric components of the backend:
  - backend/app/image/smart_crop.py   (mm_to_px, estimate_hair_top_y, smart_crop_passport)
  - backend/app/image/background.py   (remove_background pixel stages and control flow)

Machine floats are modelled by exact rationals; Python int() truncation toward
zero is modelled by pyInt.  The per-pixel Euclidean color distance computed by
numpy (np.linalg.norm of rgb minus the border-median background color) involves
square roots, which are irrational; estimate_hair_top_y consumes the image only
through these distances and its dimensions, so the image is modelled as its
dimensions together with that distance field.
-/

/-- Python int() applied to a float: truncation toward zero. -/
def pyInt (q : ℚ) : ℤ := if q < 0 then ⌈q⌉ else ⌊q⌋

/-- Embedding of mm_to_px (smart_crop.py line 11): int((mm * dpi) / 25.4) at dpi = 300. -/
def mm_to_px (mm : ℚ) : ℤ := pyInt ((mm * 300) / 25.4)

/-- Image as consumed by estimate_hair_top_y: dimensions plus the per-pixel
color distance from the border-median background color (smart_crop.py lines
32 to 46).  The dist field abstracts np.linalg.norm(rgb - bg_color, axis=2),
which is the only way pixel values enter the function; a uniformly colored
image has dist identically zero because the border median equals the pixel
color. -/
structure ScanImage where
  w : Nat
  h : Nat
  dist : Nat → Nat → ℚ

/-- Linear-interpolation percentile at q = 97, as np.percentile computes it:
sort ascending, rank r = 0.97 * (n - 1), interpolate between the two
neighbouring order statistics. -/
def percentile97 (xs : List ℚ) : ℚ :=
  let s := xs.insertionSort (· ≤ ·)
  let n := s.length
  if n = 0 then 0
  else
    let r : ℚ := (97 * ((n : ℚ) - 1)) / 100
    let lo : ℕ := r.floor.toNat
    let vlo := s.getD lo 0
    let vhi := s.getD (lo + 1) vlo
    vlo + (r - (lo : ℚ)) * (vhi - vlo)

/-- The distances of the topmost 8 rows, color_distance[:8, :] flattened
(smart_crop.py line 58). -/
def topRowsDistances (img : ScanImage) : List ℚ :=
  (List.range 8).flatMap (fun y => (List.range img.w).map (fun x => img.dist y x))

/-- One row of the scan (smart_crop.py line 65): the count of in-band pixels
whose color distance exceeds fg_threshold reaches min_fg_pixels. -/
def rowHit (img : ScanImage) (x1 x2 : ℤ) (thr : ℚ) (minFg : ℤ) (y : Nat) : Bool :=
  minFg ≤ (((List.range (x2 - x1).toNat).countP
    (fun i => decide (thr < img.dist y (x1.toNat + i))) : ℤ))

/-- The scan loop of smart_crop.py lines 62 to 72: walk rows top to bottom,
keep a streak of qualifying rows, and stop at the third consecutive hit,
reporting that row minus 2.  The first argument is the remaining fuel
(rows left to scan), the second the current row, the third the streak. -/
def scanLoop (hit : Nat → Bool) : Nat → Nat → Nat → Option ℤ
  | 0, _, _ => none
  | rem + 1, y, streak =>
    if hit y then
      if streak + 1 ≥ 3 then some ((y : ℤ) - 2)
      else scanLoop hit rem (y + 1) (streak + 1)
    else scanLoop hit rem (y + 1) 0

/-- Embedding of estimate_hair_top_y (smart_crop.py lines 16 to 89).  Every
early exit and the final clamp return paths are kept; the try/except that
returns the fallback on any numerical error is subsumed by totality. -/
def estimate_hair_top_y (img : ScanImage)
    (eye_center_x top_head_y chin_y face_core_h : ℚ) : ℚ :=
  let fallback_hair_top : ℚ := top_head_y - face_core_h * 0.32
  if img.h < 20 ∨ img.w < 20 then fallback_hair_top
  else
    let band_half_w : ℤ := max 30 (pyInt (face_core_h * 0.45))
    let x1 : ℤ := max 0 (pyInt (eye_center_x - (band_half_w : ℚ)))
    let x2 : ℤ := min (img.w : ℤ) (pyInt (eye_center_x + (band_half_w : ℚ)))
    if x2 - x1 < 12 then fallback_hair_top
    else
      let max_scan_y : ℤ := min (img.h : ℤ) (max 1 (pyInt chin_y))
      if max_scan_y < 5 then fallback_hair_top
      else
        let dynamic_floor : ℚ := percentile97 (topRowsDistances img)
        let fg_threshold : ℚ := max 18 (dynamic_floor + 6)
        let min_fg_pixels : ℤ := max 6 (pyInt (((x2 - x1 : ℤ) : ℚ) * 0.06))
        match scanLoop (rowHit img x1 x2 fg_threshold min_fg_pixels)
            max_scan_y.toNat 0 0 with
        | none => fallback_hair_top
        | some first_subject_y =>
          let safety : ℤ := max 2 (pyInt (face_core_h * 0.02))
          let candidate : ℚ := (first_subject_y : ℚ) - (safety : ℚ)
          let max_lift : ℚ := face_core_h * 0.45
          let min_candidate : ℚ := fallback_hair_top - max_lift
          min fallback_hair_top (max candidate min_candidate)

/-- One detected facial landmark, the x and y fields of a MediaPipe point dict. -/
structure LMPoint where
  x : ℚ
  y : ℚ
deriving DecidableEq

/-- Python list indexing with dict access: face_landmarks[i] raising IndexError
on a short list, or TypeError when the entry is null, is modelled as none. -/
def lookup (lm : List (Option LMPoint)) (i : Nat) : Option LMPoint :=
  (lm.get? i).bind id

/-- Face geometry extracted from the four landmarks used by
smart_crop_passport (smart_crop.py lines 101 to 108): eye-line center x and
the y coordinates of landmark 10 (forehead) and landmark 152 (chin). -/
structure FaceGeom where
  ecx : ℚ
  topY : ℚ
  chinY : ℚ
deriving DecidableEq

/-- face_core_h = abs(chin.y - top_head.y), smart_crop.py line 111. -/
def face_core_h (g : FaceGeom) : ℚ := |g.chinY - g.topY|

/-- hair_top_y as computed at smart_crop.py line 112. -/
def hair_top_y (img : ScanImage) (g : FaceGeom) : ℚ :=
  estimate_hair_top_y img g.ecx g.topY g.chinY (face_core_h g)

/-- full_head_h = abs(chin.y - hair_top_y), smart_crop.py line 119. -/
def full_head_h (img : ScanImage) (g : FaceGeom) : ℚ :=
  |g.chinY - hair_top_y img g|

/-- The framing constant face_ratio = 0.50 of smart_crop.py line 122. -/
def face_frac : ℚ := 0.50

/-- The framing constant headroom_ratio = (1.0 - face_ratio) / 2.0 of
smart_crop.py line 123. -/
def headroom_frac : ℚ := (1 - face_frac) / 2

/-- crop_h = full_head_h / face_ratio, smart_crop.py line 124.  Takes no
target dimensions: the crop height depends only on the image and the face
geometry. -/
def crop_h (img : ScanImage) (g : FaceGeom) : ℚ := full_head_h img g / face_frac

/-- crop_w = (target_w_mm / target_h_mm) * crop_h, smart_crop.py line 125. -/
def crop_w (img : ScanImage) (g : FaceGeom) (target_w_mm target_h_mm : ℚ) : ℚ :=
  (target_w_mm / target_h_mm) * crop_h img g

/-- frame_top = hair_top_y - crop_h * headroom_ratio, smart_crop.py line 128. -/
def frame_top (img : ScanImage) (g : FaceGeom) : ℚ :=
  hair_top_y img g - crop_h img g * headroom_frac

/-- frame_bottom = frame_top + crop_h, smart_crop.py line 129. -/
def frame_bottom (img : ScanImage) (g : FaceGeom) : ℚ :=
  frame_top img g + crop_h img g

/-- frame_left = eye_center_x - crop_w / 2, smart_crop.py line 130. -/
def frame_left (img : ScanImage) (g : FaceGeom) (target_w_mm target_h_mm : ℚ) : ℚ :=
  g.ecx - crop_w img g target_w_mm target_h_mm / 2

/-- frame_right = eye_center_x + crop_w / 2, smart_crop.py line 131. -/
def frame_right (img : ScanImage) (g : FaceGeom) (target_w_mm target_h_mm : ℚ) : ℚ :=
  g.ecx + crop_w img g target_w_mm target_h_mm / 2

/-- Everything the returned image of smart_crop_passport is a deterministic
function of: whether the exception fallback was taken, the integer crop box
on the white-padded canvas, and the exact output pixel dimensions.  The PIL
canvas paste, crop and LANCZOS resize are deterministic in these values and
the input image. -/
structure CropResult where
  usedFallback : Bool
  boxLeft : ℤ
  boxTop : ℤ
  boxRight : ℤ
  boxBottom : ℤ
  finalW : ℤ
  finalH : ℤ
deriving DecidableEq

/-- Embedding of smart_crop_passport (smart_crop.py lines 92 to 153).  A
missing or null landmark raises in Python and lands in the except branch
that resizes the whole input, as does a zero target height via
ZeroDivisionError; both are the usedFallback result here. -/
def smart_crop_passport (img : ScanImage) (face_landmarks : List (Option LMPoint))
    (target_w_mm target_h_mm : ℚ) : CropResult :=
  if target_h_mm = 0 then
    ⟨true, 0, 0, (img.w : ℤ), (img.h : ℤ), mm_to_px target_w_mm, mm_to_px target_h_mm⟩
  else
    match lookup face_landmarks 33, lookup face_landmarks 263,
        lookup face_landmarks 10, lookup face_landmarks 152 with
    | some left_eye, some right_eye, some top_head, some chin =>
      let g : FaceGeom := ⟨(left_eye.x + right_eye.x) / 2, top_head.y, chin.y⟩
      let pad : ℤ := pyInt (((max img.w img.h : ℕ) : ℚ) * 0.6)
      ⟨false,
        pyInt (frame_left img g target_w_mm target_h_mm + (pad : ℚ)),
        pyInt (frame_top img g + (pad : ℚ)),
        pyInt (frame_right img g target_w_mm target_h_mm + (pad : ℚ)),
        pyInt (frame_bottom img g + (pad : ℚ)),
        mm_to_px target_w_mm, mm_to_px target_h_mm⟩
    | _, _, _, _ =>
      ⟨true, 0, 0, (img.w : ℤ), (img.h : ℤ), mm_to_px target_w_mm, mm_to_px target_h_mm⟩

/-- One RGBA pixel with rational channels. -/
abbrev RGBAPix : Type := ℚ × ℚ × ℚ × ℚ

/-- An image for the background-removal pipeline, a flat pixel list. -/
abbrev RGBA : Type := List RGBAPix

/-- Core-foreground test of background.py line 50: core_mask = alpha_base > 0.95. -/
def core_mask (alpha : ℚ) : Bool := decide (0.95 < alpha)

/-- Clean-plate base of background.py lines 52 to 53: start from the original
color and zero every pixel with alpha_base < 0.95, keeping the rest; the 7x7
3-iteration dilation and the bilateral filter are applied to this array
afterwards. -/
def subject_only (alpha orig : ℚ) : ℚ := if alpha < 0.95 then 0 else orig

/-- color_target of background.py line 67: original mixed with the clean
plate under blend_weight, where blend_weight is alpha_base ** 3.5 (the steep
curve of line 66, kept as a parameter because a rational to the power 3.5 is
irrational in general). -/
def color_target (orig plate blend_weight : ℚ) : ℚ :=
  orig * blend_weight + plate * (1 - blend_weight)

/-- decontam_rgb of background.py line 68: color_target weighted by the
variance map against the untouched original. -/
def decontam_rgb (orig plate blend_weight var_weight : ℚ) : ℚ :=
  color_target orig plate blend_weight * var_weight + orig * (1 - var_weight)

/-- Fog elimination of background.py line 87: alpha below 0.05 is forced to 0. -/
def fog_eliminate (alpha : ℚ) : ℚ := if alpha < 0.05 then 0 else alpha

/-- np.clip(x, 0, 1) of background.py line 88. -/
def clip01 (alpha : ℚ) : ℚ := min 1 (max 0 alpha)

/-- The final alpha of one pixel after steps 5 and 6 of remove_background:
fog elimination on the sigmoid output followed by the clip of line 88.  The
argument stands for the sigmoid value 1 / (1 + exp(-25 * (a - 0.58))) of
line 83, kept as a parameter because exp is irrational. -/
def final_alpha (sigmoid_alpha : ℚ) : ℚ := clip01 (fog_eliminate sigmoid_alpha)

/-- Control flow of remove_background (background.py lines 22 to 105).  The
provider argument is the rembg remove call, invoked with strict alpha-matting
thresholds (flag true, line 34) on the main path and with default parameters
(flag false, line 104) on the except path; refine is the whole refinement
body, steps 2 to 7 of lines 44 to 97.  An exception anywhere in the try block
lands in the except branch, which calls the provider again and returns its
result directly, so a failure of that second call propagates to the caller. -/
def remove_background (provider : Bool → RGBA → Except Unit RGBA)
    (refine : RGBA → RGBA → Except Unit RGBA) (img : RGBA) : Except Unit RGBA :=
  match provider true img with
  | Except.ok raw =>
    match refine img raw with
    | Except.ok out => Except.ok out
    | Except.error _ => provider false img
  | Except.error _ => provider false img

/-- Round half to nearest, the rounding the spec prescribes for the
physical-unit contract px = round(mm * 300 / 25.4); stated from the spec
wording, to be compared with the mm_to_px truncation of the source. -/
def roundHalfToNearest (q : ℚ) : ℤ := ⌊q + 1 / 2⌋

/-- Helper: estimate_hair_top_y either returns the fallback directly or the
clamped pixel-scan candidate min fallback (max candidate (fallback - lift)). -/
theorem estimate_hair_top_cases (img : ScanImage) (ecx ty cy fch : ℚ) :
    estimate_hair_top_y img ecx ty cy fch = ty - fch * 0.32 ∨
    ∃ c : ℚ, estimate_hair_top_y img ecx ty cy fch =
      min (ty - fch * 0.32) (max c (ty - fch * 0.32 - fch * 0.45)) := by
  simp only [estimate_hair_top_y]
  split
  · exact Or.inl rfl
  · split
    · exact Or.inl rfl
    · split
      · exact Or.inl rfl
      · split
        · exact Or.inl rfl
        · rename_i fsy heq
          exact Or.inr ⟨(fsy : ℚ) - ((max 2 (pyInt (fch * 0.02)) : ℤ) : ℚ), by ring_nf⟩

/-- Helper: the estimator never returns a larger y than the landmark fallback. -/
theorem estimate_le_fallback (img : ScanImage) (ecx ty cy fch : ℚ) :
    estimate_hair_top_y img ecx ty cy fch ≤ ty - fch * 0.32 := by
  rcases estimate_hair_top_cases img ecx ty cy fch with h | ⟨c, h⟩
  · exact le_of_eq h
  · rw [h]; exact min_le_left _ _

/-- Helper: the scan finds nothing when no row qualifies. -/
theorem scanLoop_none (hit : Nat → Bool) (hfalse : ∀ y, hit y = false) :
    ∀ n y s, scanLoop hit n y s = none := by
  intro n
  induction n with
  | zero => intro y s; rfl
  | succ m ih =>
    intro y s
    unfold scanLoop
    rw [hfalse y]
    simp only [Bool.false_eq_true, if_false]
    exact ih (y + 1) 0

/-- Helper: on an image whose color distances are all zero, no scan row ever
reaches the foreground threshold. -/
theorem rowHit_zero_dist (img : ScanImage) (x1 x2 : ℤ) (thr : ℚ) (minFg : ℤ)
    (hd : ∀ y x, img.dist y x = 0) (hthr : 0 < thr) (hmf : 1 ≤ minFg) (y : Nat) :
    rowHit img x1 x2 thr minFg y = false := by
  unfold rowHit
  have hc : ((List.range (x2 - x1).toNat).countP
      (fun i => decide (thr < img.dist y (x1.toNat + i)))) = 0 := by
    apply List.countP_eq_zero.mpr
    intro a _
    simp only [hd, decide_eq_true_eq]
    exact not_lt.mpr (le_of_lt hthr)
  rw [hc]
  simp only [Nat.cast_zero, decide_eq_false_iff_not, not_le]
  omega

/-- C3: for every image and all numeric inputs with face_core_h nonnegative,
estimate_hair_top_y returns a value between fallback - 0.45 * face_core_h and
fallback inclusive, where fallback = top_head_y - face_core_h * 0.32: the
result never exceeds the fallback and never rises more than 45 percent of
face-core-height above it. -/
theorem hair_top_between_fallback_and_lift (img : ScanImage)
    (ecx ty cy fch : ℚ) (hfch : 0 ≤ fch) :
    (ty - fch * 0.32) - fch * 0.45 ≤ estimate_hair_top_y img ecx ty cy fch ∧
    estimate_hair_top_y img ecx ty cy fch ≤ ty - fch * 0.32 := by
  refine ⟨?_, estimate_le_fallback img ecx ty cy fch⟩
  rcases estimate_hair_top_cases img ecx ty cy fch with h | ⟨c, h⟩
  · rw [h]; nlinarith
  · rw [h]
    exact le_min (by nlinarith) (le_max_right _ _)

/-- Witness for C3 at a concrete degenerate input. -/
theorem hair_top_between_fallback_and_lift_witness :
    (0 : ℚ) ≤ 0 ∧
    (((0 : ℚ) - 0 * 0.32) - 0 * 0.45 ≤
        estimate_hair_top_y ⟨0, 0, fun _ _ => 0⟩ 0 0 0 0 ∧
      estimate_hair_top_y ⟨0, 0, fun _ _ => 0⟩ 0 0 0 0 ≤ 0 - 0 * 0.32) :=
  ⟨le_refl 0, hair_top_between_fallback_and_lift ⟨0, 0, fun _ _ => 0⟩ 0 0 0 0 (le_refl 0)⟩

/-- C7: estimate_hair_top_y is a total function of its inputs (the try/except
of smart_crop.py line 87 can never let an exception escape), and on every
degenerate image - smaller than 20 by 20, or uniformly colored so that every
pixel has zero color distance from the border-median background - it returns
exactly the fallback top_head_y - face_core_h * 0.32. -/
theorem estimate_degenerate_returns_fallback (img : ScanImage) (ecx ty cy fch : ℚ)
    (hdeg : img.h < 20 ∨ img.w < 20 ∨ ∀ y x, img.dist y x = 0) :
    estimate_hair_top_y img ecx ty cy fch = ty - fch * 0.32 := by
  simp only [estimate_hair_top_y]
  split
  · rfl
  · rename_i hsize
    have hd : ∀ y x, img.dist y x = 0 := by
      rcases hdeg with h | h | h
      · exact absurd (Or.inl h) hsize
      · exact absurd (Or.inr h) hsize
      · exact h
    split
    · rfl
    · split
      · rfl
      · rw [scanLoop_none _ (fun y => rowHit_zero_dist img _ _ _ _ hd
          (lt_of_lt_of_le (by norm_num) (le_max_left 18 _))
          (le_trans (by norm_num) (le_max_left 6 _)) y)]

/-- Witness for C7 at a concrete 1 by 1 uniformly black image. -/
theorem estimate_degenerate_returns_fallback_witness :
    ((⟨1, 1, fun _ _ => 0⟩ : ScanImage).h < 20 ∨
      (⟨1, 1, fun _ _ => 0⟩ : ScanImage).w < 20 ∨
      ∀ y x, (⟨1, 1, fun _ _ => 0⟩ : ScanImage).dist y x = 0) ∧
    estimate_hair_top_y ⟨1, 1, fun _ _ => 0⟩ 5 100 400 300 = 100 - 300 * 0.32 :=
  ⟨Or.inl (by norm_num),
    estimate_degenerate_returns_fallback ⟨1, 1, fun _ _ => 0⟩ 5 100 400 300
      (Or.inl (by norm_num))⟩

/-- C1: for a valid face geometry (chin landmark below the forehead landmark),
the crop frame of smart_crop_passport places the hairline-to-chin span at
exactly half the crop height, starting a quarter of the crop height from the
frame top and ending a quarter from the frame bottom.  The LANCZOS resize of
line 149 maps the frame linearly onto the output, so these proportions are
those of the output image up to the integer rounding of the crop box. -/
theorem framing_ratio_invariant (img : ScanImage) (g : FaceGeom)
    (hv : g.topY < g.chinY) :
    hair_top_y img g - frame_top img g = crop_h img g * (1 / 4) ∧
    frame_bottom img g - g.chinY = crop_h img g * (1 / 4) ∧
    g.chinY - hair_top_y img g = crop_h img g * (1 / 2) := by
  have hfch : face_core_h g = g.chinY - g.topY := by
    unfold face_core_h
    rw [abs_of_pos (by linarith)]
  have hht : hair_top_y img g ≤ g.topY - face_core_h g * 0.32 :=
    estimate_le_fallback img g.ecx g.topY g.chinY (face_core_h g)
  rw [hfch] at hht
  have hlt : hair_top_y img g < g.chinY := by nlinarith
  have hfhh : full_head_h img g = g.chinY - hair_top_y img g := by
    unfold full_head_h
    rw [abs_of_pos (by linarith)]
  have hch : crop_h img g = 2 * (g.chinY - hair_top_y img g) := by
    unfold crop_h face_frac
    rw [hfhh]
    ring
  refine ⟨?_, ?_, ?_⟩
  · unfold frame_top headroom_frac face_frac
    rw [hch]
    ring
  · unfold frame_bottom frame_top headroom_frac face_frac
    rw [hch]
    ring
  · rw [hch]
    ring

/-- Witness for C1 at the spec example geometry: forehead y 200, chin y 600,
eye-line center x 450, on a blank 1000 by 1000 image. -/
theorem framing_ratio_invariant_witness :
    (⟨450, 200, 600⟩ : FaceGeom).topY < (⟨450, 200, 600⟩ : FaceGeom).chinY ∧
    (hair_top_y ⟨1000, 1000, fun _ _ => 0⟩ ⟨450, 200, 600⟩ -
        frame_top ⟨1000, 1000, fun _ _ => 0⟩ ⟨450, 200, 600⟩ =
      crop_h ⟨1000, 1000, fun _ _ => 0⟩ ⟨450, 200, 600⟩ * (1 / 4) ∧
    frame_bottom ⟨1000, 1000, fun _ _ => 0⟩ ⟨450, 200, 600⟩ -
        (⟨450, 200, 600⟩ : FaceGeom).chinY =
      crop_h ⟨1000, 1000, fun _ _ => 0⟩ ⟨450, 200, 600⟩ * (1 / 4) ∧
    (⟨450, 200, 600⟩ : FaceGeom).chinY -
        hair_top_y ⟨1000, 1000, fun _ _ => 0⟩ ⟨450, 200, 600⟩ =
      crop_h ⟨1000, 1000, fun _ _ => 0⟩ ⟨450, 200, 600⟩ * (1 / 2)) :=
  ⟨by norm_num, framing_ratio_invariant ⟨1000, 1000, fun _ _ => 0⟩ ⟨450, 200, 600⟩
    (by norm_num)⟩

/-- C8: crop_w is aspect-locked to crop_h.  Doubling the target width at a
fixed target height doubles crop_w, and crop_w equals the requested aspect
ratio times crop_h; crop_h itself takes no target dimensions, so it is
constant in them by construction. -/
theorem aspect_lock (img : ScanImage) (g : FaceGeom) (tw th : ℚ) :
    crop_w img g (2 * tw) th = 2 * crop_w img g tw th ∧
    crop_w img g tw th = (tw / th) * crop_h img g := by
  unfold crop_w
  exact ⟨by ring, rfl⟩

/-- Counterexample for C2: at target width 38 mm the code truncates
38 * 300 / 25.4 = 448.81... down to 448 pixels, while round-half-to-nearest
gives 449. -/
theorem output_width_not_rounded :
    (smart_crop_passport ⟨0, 0, fun _ _ => 0⟩ [] 38 45).finalW ≠
      roundHalfToNearest ((38 : ℚ) * 300 / 25.4) := by
  have h : (smart_crop_passport ⟨0, 0, fun _ _ => 0⟩ [] 38 45).finalW = mm_to_px 38 := rfl
  rw [h]
  unfold mm_to_px pyInt roundHalfToNearest
  rw [if_neg (by norm_num)]
  norm_num

/-- C2 as amended: the output pixel dimensions of smart_crop_passport equal
the truncation (Python int, floor for positive values) of mm * 300 / 25.4 in
both axes, on the normal path and on the exception-fallback path alike, for
every positive target size. -/
theorem output_dims_truncated (img : ScanImage) (lm : List (Option LMPoint))
    (tw th : ℚ) (htw : 0 < tw) (hth : 0 < th) :
    (smart_crop_passport img lm tw th).finalW = ⌊tw * 300 / 25.4⌋ ∧
    (smart_crop_passport img lm tw th).finalH = ⌊th * 300 / 25.4⌋ := by
  have hpx : ∀ mm : ℚ, 0 < mm → mm_to_px mm = ⌊mm * 300 / 25.4⌋ := by
    intro mm hmm
    unfold mm_to_px pyInt
    rw [if_neg]
    push_neg
    positivity
  have hW : (smart_crop_passport img lm tw th).finalW = mm_to_px tw := by
    unfold smart_crop_passport
    split
    · rfl
    · split <;> rfl
  have hH : (smart_crop_passport img lm tw th).finalH = mm_to_px th := by
    unfold smart_crop_passport
    split
    · rfl
    · split <;> rfl
  rw [hW, hH, hpx tw htw, hpx th hth]
  exact ⟨rfl, rfl⟩

/-- Witness for C2 as amended, at the standard 35 by 45 mm passport size. -/
theorem output_dims_truncated_witness :
    (0 : ℚ) < 35 ∧ (0 : ℚ) < 45 ∧
    ((smart_crop_passport ⟨100, 100, fun _ _ => 0⟩ [] 35 45).finalW =
        ⌊(35 : ℚ) * 300 / 25.4⌋ ∧
      (smart_crop_passport ⟨100, 100, fun _ _ => 0⟩ [] 35 45).finalH =
        ⌊(45 : ℚ) * 300 / 25.4⌋) :=
  ⟨by norm_num, by norm_num,
    output_dims_truncated ⟨100, 100, fun _ _ => 0⟩ [] 35 45 (by norm_num) (by norm_num)⟩

/-- C10: smart_crop_passport reads only landmark indices 10, 152, 33 and 263.
Two landmark lists that agree at these four indices, each holding a valid
point there, produce identical results whatever the other entries hold. -/
theorem smart_crop_reads_four_landmarks (img : ScanImage)
    (lm1 lm2 : List (Option LMPoint)) (tw th : ℚ)
    (h33 : lookup lm1 33 = lookup lm2 33)
    (h263 : lookup lm1 263 = lookup lm2 263)
    (h10 : lookup lm1 10 = lookup lm2 10)
    (h152 : lookup lm1 152 = lookup lm2 152)
    (hv10 : (lookup lm1 10).isSome = true)
    (hv152 : (lookup lm1 152).isSome = true)
    (hv33 : (lookup lm1 33).isSome = true)
    (hv263 : (lookup lm1 263).isSome = true) :
    smart_crop_passport img lm1 tw th = smart_crop_passport img lm2 tw th := by
  unfold smart_crop_passport
  rw [h33, h263, h10, h152]

/-- Witness for C10: a full 264-entry landmark list versus the same list with
its entry 0 replaced by null gives the same crop. -/
theorem smart_crop_reads_four_landmarks_witness :
    lookup (List.replicate 264 (some ⟨0, 0⟩)) 33 =
      lookup ((List.replicate 264 (some ⟨0, 0⟩)).set 0 none) 33 ∧
    lookup (List.replicate 264 (some ⟨0, 0⟩)) 263 =
      lookup ((List.replicate 264 (some ⟨0, 0⟩)).set 0 none) 263 ∧
    lookup (List.replicate 264 (some ⟨0, 0⟩)) 10 =
      lookup ((List.replicate 264 (some ⟨0, 0⟩)).set 0 none) 10 ∧
    lookup (List.replicate 264 (some ⟨0, 0⟩)) 152 =
      lookup ((List.replicate 264 (some ⟨0, 0⟩)).set 0 none) 152 ∧
    smart_crop_passport ⟨25, 25, fun _ _ => 0⟩ (List.replicate 264 (some ⟨0, 0⟩)) 35 45 =
      smart_crop_passport ⟨25, 25, fun _ _ => 0⟩
        ((List.replicate 264 (some ⟨0, 0⟩)).set 0 none) 35 45 :=
  ⟨rfl, rfl, rfl, rfl,
    smart_crop_reads_four_landmarks ⟨25, 25, fun _ _ => 0⟩ _ _ 35 45
      rfl rfl rfl rfl rfl rfl rfl rfl⟩

/-- Counterexample for C4: when a refinement stage fails and the second
provider call of the except branch (background.py line 104) also fails, the
exception propagates out of remove_background instead of returning
normally. -/
theorem remove_background_can_propagate :
    remove_background
      (fun strict_flag _ => if strict_flag then Except.ok [] else Except.error ())
      (fun _ _ => Except.error ()) ([] : RGBA) = Except.error () := rfl

/-- C4 as amended: if any refinement stage raises and the provider call on
the except path succeeds, remove_background returns normally with exactly
that provider result, the raw mask composited by the provider with basic
alpha blending and no decontamination. -/
theorem remove_background_fallback_on_refine_error
    (provider : Bool → RGBA → Except Unit RGBA)
    (refine : RGBA → RGBA → Except Unit RGBA) (img raw out : RGBA)
    (h1 : provider true img = Except.ok raw)
    (h2 : refine img raw = Except.error ())
    (h3 : provider false img = Except.ok out) :
    remove_background provider refine img = Except.ok out := by
  simp [remove_background, h1, h2, h3]

/-- Witness for C4 as amended, with an identity provider and a refinement
that always fails. -/
theorem remove_background_fallback_on_refine_error_witness :
    (fun (_ : Bool) (i : RGBA) => (Except.ok i : Except Unit RGBA)) true [] =
      Except.ok [] ∧
    (fun (_ _ : RGBA) => (Except.error () : Except Unit RGBA)) [] [] =
      Except.error () ∧
    (fun (_ : Bool) (i : RGBA) => (Except.ok i : Except Unit RGBA)) false [] =
      Except.ok [] ∧
    remove_background (fun _ i => Except.ok i) (fun _ _ => Except.error ()) [] =
      Except.ok [] :=
  ⟨rfl, rfl, rfl,
    remove_background_fallback_on_refine_error
      (fun _ i => Except.ok i) (fun _ _ => Except.error ()) [] [] [] rfl rfl rfl⟩

/-- Counterexample for C5: at variance weight 0 the decontaminated color is
the untouched original, not the clean-plate color, and at variance weight 1
it is color_target, not the untouched original (shown at original 100, clean
plate 0, blend weight one half). -/
theorem decontam_endpoints_swapped :
    decontam_rgb 100 0 (1 / 2) 0 ≠ (0 : ℚ) ∧
    decontam_rgb 100 0 (1 / 2) 1 ≠ (100 : ℚ) := by
  constructor <;> norm_num [decontam_rgb, color_target]

/-- C5 as amended: in the color-blend stage, a pixel with variance weight 0
(flat region) keeps the untouched original color, and a pixel with variance
weight 1 (detailed region) receives color_target, the steep-curve mix of the
original and the clean plate under blend weight raw_alpha to the power 3.5. -/
theorem decontam_blend_endpoints (orig plate blend_weight : ℚ) :
    decontam_rgb orig plate blend_weight 0 = orig ∧
    decontam_rgb orig plate blend_weight 1 = color_target orig plate blend_weight := by
  unfold decontam_rgb
  constructor <;> ring

/-- C6: whatever value the sigmoid stage produced, after fog elimination and
the clip the per-pixel alpha lies in the unit interval and is either exactly
0 or at least 0.05. -/
theorem final_alpha_bounded_and_fog_free (a : ℚ) :
    0 ≤ final_alpha a ∧ final_alpha a ≤ 1 ∧
    (final_alpha a = 0 ∨ 0.05 ≤ final_alpha a) := by
  unfold final_alpha clip01 fog_eliminate
  split_ifs with h
  · norm_num
  · push_neg at h
    exact ⟨le_min (by norm_num) (le_max_left 0 a), min_le_left _ _,
      Or.inr (le_min (by norm_num) (le_trans h (le_max_right 0 a)))⟩

/-- C9: with raw alpha of the form k / 255 as produced from the 8-bit mask,
exactly the pixels with alpha strictly above 0.95 are core, and every pixel
is either core or has its clean-plate base color zeroed, since k / 255 can
never equal 0.95 exactly. -/
theorem core_mask_threshold_and_zeroing (k : Fin 256) (orig : ℚ) :
    (core_mask (((k : ℕ) : ℚ) / 255) = true ↔ 0.95 < ((k : ℕ) : ℚ) / 255) ∧
    (core_mask (((k : ℕ) : ℚ) / 255) = true ∨
      subject_only (((k : ℕ) : ℚ) / 255) orig = 0) := by
  constructor
  · simp [core_mask]
  · by_cases h : ((k : ℕ) : ℚ) / 255 < 0.95
    · right
      simp [subject_only, h]
    · left
      push_neg at h
      rcases lt_or_eq_of_le h with h1 | h1
      · simp only [core_mask, decide_eq_true_eq]
        exact h1
      · exfalso
        have hk : (4 * (k : ℕ) : ℚ) = 969 := by
          nlinarith [h1]
        have hk2 : 4 * (k : ℕ) = 969 := by exact_mod_cast hk
        omega
